import Mathlib

/-!
Verification of the `8W_Dask_Rapids.ipynb` notebook
(repository `shai-github/course-materials`).

The notebook is a linear sequence of cells.  The only function defined in
the repository itself is `expensive`, the per-row price-index transform
passed to `cudf.DataFrame.apply_rows`; everything else is a direct call
into external libraries (`dask_cuda`, `dask.distributed`, `dask_cudf`,
`cudf`, `cuml`, `numpy`).  We embed:

* the `expensive` function (its loop and branching) over lists of integers;
* the data rows of the CSV files and the denotations of the library calls
  the notebook issues (groupby-mean, column selection, dropna, linear-model
  prediction), with numeric values modelled as exact rationals;
* the notebook itself as the ordered list of operations its cells perform,
  together with what each operation displays, whether it applies a
  repository-defined function, and whether it installs any error handler.
-/

/-- The body of the branch inside `expensive` (notebook cell 5):
`if price < 50: 0 elif price < 100: 1 else: 2`. -/
def priceBucket (price : Int) : Int :=
  if price < 50 then 0 else if price < 100 then 1 else 2

/-- The loop of `expensive` (notebook cell 5): `for i, price in enumerate(x)`
writes `price_index[i]` for each element of `x`, starting at position `i`.
A write at an out-of-range position is a no-op of `List.set`. -/
def expensiveLoop (x : List Int) (price_index : List Int) (i : Nat) : List Int :=
  match x with
  | [] => price_index
  | price :: rest => expensiveLoop rest (price_index.set i (priceBucket price)) (i + 1)

/-- The `expensive` function of notebook cell 5.  It receives the column
`x` (the prices) and the output column `price_index`; its only effect is
the assignment `price_index[i] = ...` inside the loop, so the embedding
returns the pair (final `x`, final `price_index`). -/
def expensive (x : List Int) (price_index : List Int) : List Int × List Int :=
  (x, expensiveLoop x price_index 0)

theorem expensiveLoop_length (x : List Int) (p : List Int) (i : Nat) :
    (expensiveLoop x p i).length = p.length := by
  induction x generalizing p i with
  | nil => rfl
  | cons price rest ih => simpa [expensiveLoop] using ih (p.set i (priceBucket price)) (i + 1)

theorem expensiveLoop_get_lt (x : List Int) (p : List Int) (i j : Nat) (h : j < i) :
    (expensiveLoop x p i)[j]? = p[j]? := by
  induction x generalizing p i with
  | nil => rfl
  | cons price rest ih =>
      rw [expensiveLoop, ih (p.set i (priceBucket price)) (i + 1) (Nat.lt_succ_of_lt h)]
      exact List.getElem?_set_ne (Nat.ne_of_gt h)

theorem expensiveLoop_get_ge (x : List Int) (p : List Int) (i j : Nat)
    (h : i + x.length ≤ j) : (expensiveLoop x p i)[j]? = p[j]? := by
  induction x generalizing p i with
  | nil => rfl
  | cons price rest ih =>
      rw [expensiveLoop, ih (p.set i (priceBucket price)) (i + 1) (by simp at h; omega)]
      exact List.getElem?_set_ne (by simp at h; omega)

theorem expensiveLoop_get_in (x : List Int) (p : List Int) (i j : Nat)
    (h1 : i ≤ j) (h2 : j < i + x.length) (h3 : j < p.length) :
    (expensiveLoop x p i)[j]? = some (priceBucket (x.getD (j - i) 0)) := by
  induction x generalizing p i with
  | nil => simp at h2; omega
  | cons price rest ih =>
      rw [expensiveLoop]
      rcases Nat.eq_or_lt_of_le h1 with heq | hlt
      · subst heq
        rw [expensiveLoop_get_lt rest _ (i + 1) i (Nat.lt_succ_self i)]
        simp [List.getElem?_set_self h3]
      · rw [ih (p.set i (priceBucket price)) (i + 1) hlt (by simp at h2 ⊢; omega)
            (by simpa using h3)]
        have hji : j - i = (j - (i + 1)) + 1 := by omega
        simp [hji]

/-- A row of the AirBnB CSV files the notebook loads.  Only the columns the
notebook touches are modelled; `reviews_per_month` and `minimum_nights` may
be missing (shown as `<NA>` in the notebook output), so they are `Option`.
Numeric values are exact rationals. -/
structure Row where
  neighbourhood : String
  room_type : String
  price : ℚ
  reviews_per_month : Option ℚ
  minimum_nights : Option ℚ
deriving DecidableEq

/-- The grouping key of notebook cell 4: `groupby(['neighbourhood', 'room_type'])`. -/
def keyOf (r : Row) : String × String := (r.neighbourhood, r.room_type)

/-- Arithmetic mean of the `price` column of a list of rows. -/
def meanPrice (rows : List Row) : ℚ :=
  (rows.map Row.price).sum / rows.length

/-- Denotation of notebook cell 4,
`df.groupby(['neighbourhood', 'room_type']).price.mean().compute()`:
one entry per distinct (neighbourhood, room_type) pair occurring in the
data, carrying the mean price over the rows with that pair.  The groupby
and mean are external `dask_cudf` operations; this is their documented
semantics. -/
def groupbyMeanPrice (rows : List Row) : List ((String × String) × ℚ) :=
  (rows.map keyOf).dedup.map (fun k => (k, meanPrice (rows.filter (fun r => keyOf r = k))))

/-- Look a key up in an association list of group results. -/
def lookupKey (k : String × String) : List ((String × String) × ℚ) → Option ℚ
  | [] => none
  | (k2, v) :: rest => if k2 = k then some v else lookupKey k rest

theorem lookupKey_map_self {f : String × String → ℚ} (ks : List (String × String))
    (k : String × String) (h : k ∈ ks) :
    lookupKey k (ks.map (fun k => (k, f k))) = some (f k) := by
  induction ks with
  | nil => cases h
  | cons a t ih =>
      rcases List.mem_cons.mp h with rfl | ht
      · simp [lookupKey]
      · by_cases hak : a = k
        · simp [lookupKey, hak]
        · simpa [lookupKey, hak] using ih ht

/-- A fitted linear model over the two features
`reviews_per_month` and `minimum_nights`: two coefficients and an
intercept (the shape of a `cuml` `LinearRegression` fitted on two
columns). -/
structure LinModel where
  w1 : ℚ
  w2 : ℚ
  b : ℚ

/-- Evaluation of a fitted linear model on one feature pair; the documented
semantics of `LinearRegression.predict` on one row. -/
def LinModel.eval (m : LinModel) (features : ℚ × ℚ) : ℚ :=
  m.w1 * features.1 + m.w2 * features.2 + m.b

/-- Denotation of `df[['reviews_per_month', 'minimum_nights']]
.astype(np.float32).dropna()` (notebook cells 6 and 7): select the two
feature columns and drop each row in which either is missing.  The cast
to float32 is modelled as the identity on the exact rational values. -/
def selectFeatures (rows : List Row) : List (ℚ × ℚ) :=
  rows.filterMap (fun r =>
    match r.reviews_per_month, r.minimum_nights with
    | some a, some b => some (a, b)
    | _, _ => none)

/-- Denotation of `df[['price']].astype(np.float32).dropna()` (notebook
cell 6); `price` is never missing in the model, so nothing is dropped. -/
def selectPrice (rows : List Row) : List ℚ :=
  rows.map Row.price

/-- The model object `fit` of notebook cell 6:
`fit = LinearRegression().fit(X, y)` where `X` and `y` are the selected
columns of the first (listings) dataset.  The least-squares computation
lives inside `cuml`, so the fitting algorithm is a parameter. -/
def notebookFit (fitAlg : List (ℚ × ℚ) → List ℚ → LinModel) (df : List Row) : LinModel :=
  fitAlg (selectFeatures df) (selectPrice df)

/-- Row-wise prediction, the documented semantics of `fit.predict` on a
two-feature frame. -/
def predictModel (m : LinModel) (features : List (ℚ × ℚ)) : List ℚ :=
  features.map m.eval

/-- The prediction vector of notebook cell 7:
`fit.predict(X_test).compute()` where
`X_test = df_nyc[['reviews_per_month', 'minimum_nights']].astype(np.float32).dropna()`
and `fit` is the model fitted on the first dataset in cell 6. -/
def notebookPredictions (fitAlg : List (ℚ × ℚ) → List ℚ → LinModel)
    (df df_nyc : List Row) : List ℚ :=
  predictModel (notebookFit fitAlg df) (selectFeatures df_nyc)

/-- A row has no missing feature value. -/
def hasFeatures (r : Row) : Bool :=
  r.reviews_per_month.isSome && r.minimum_nights.isSome

theorem selectFeatures_eq_filter (rows : List Row) :
    selectFeatures rows = (rows.filter hasFeatures).map
      (fun r => (r.reviews_per_month.getD 0, r.minimum_nights.getD 0)) := by
  induction rows with
  | nil => rfl
  | cons r rest ih =>
      rcases ha : r.reviews_per_month with _ | a <;> rcases hb : r.minimum_nights with _ | b <;>
        simp [selectFeatures, hasFeatures, ha, hb, List.filterMap_cons, List.filter_cons] <;>
        simpa [selectFeatures] using ih

/-- The kinds of operations the notebook performs, in the vocabulary of the
specification: (a) querying visible accelerator devices, (b) starting a
local multi-worker cluster, (c) loading CSV files into a distributed
DataFrame, (d) a groupby/aggregate query, (e) a per-row transformation,
(f) fitting a distributed linear regression model, (g) scoring with it. -/
inductive OpKind where
  | queryDevices
  | startCluster
  | loadCSV
  | groupbyAggregate
  | applyPerRow
  | fitModel
  | predict
deriving DecidableEq, Repr

/-- The tabular outputs the notebook displays. -/
inductive OutputKind where
  | deviceListing
  | dataFrameHead
  | groupedPriceMean
  | priceIndexHead
  | predictedPricesHead
deriving DecidableEq, Repr

/-- One operation of the notebook: its kind, what (if anything) its cell
displays, whether it applies a function defined in this repository, and
whether any error handler is installed around it. -/
structure Step where
  opKind : OpKind
  output : Option OutputKind
  usesRepoFunction : Bool
  handlesErrors : Bool
deriving DecidableEq, Repr

/-- The notebook, cell by cell, as the ordered list of the operations it
performs (read off the source of `8W_Dask_Rapids.ipynb`):
1. `!nvidia-smi` — query the visible GPUs, printing the device listing;
2. `cluster = LocalCUDACluster(); client = Client(cluster)` — start the
   local multi-worker cluster object;
3. `df = dask_cudf.read_csv('listings*.csv'); df.head()` — load the CSV
   files, displaying the head of the loaded DataFrame;
4. `df.groupby(['neighbourhood', 'room_type']).price.mean().compute()` —
   the groupby/aggregate query, displaying the grouped price-mean table;
5. `df = df.apply_rows(expensive, incols={'price':'x'},
   outcols={'price_index': int}); df[['price', 'price_index']].head()` —
   the per-row transformation, applying the repository-defined function
   `expensive` and displaying the head of the price-index column;
6. `X = ...; y = ...; fit = LinearRegression().fit(X, y)` — fit the
   distributed linear regression model;
7. `df_nyc = dask_cudf.read_csv('test*.csv')` — load the second (NYC)
   CSV file;
8. `fit.predict(X_test).compute().head()` — score the second dataset,
   displaying the head of the predicted prices.
No cell installs a try/except handler or retry. -/
def notebookSteps : List Step :=
  [ ⟨OpKind.queryDevices, some OutputKind.deviceListing, false, false⟩,
    ⟨OpKind.startCluster, none, false, false⟩,
    ⟨OpKind.loadCSV, some OutputKind.dataFrameHead, false, false⟩,
    ⟨OpKind.groupbyAggregate, some OutputKind.groupedPriceMean, false, false⟩,
    ⟨OpKind.applyPerRow, some OutputKind.priceIndexHead, true, false⟩,
    ⟨OpKind.fitModel, none, false, false⟩,
    ⟨OpKind.loadCSV, none, false, false⟩,
    ⟨OpKind.predict, some OutputKind.predictedPricesHead, false, false⟩ ]

/-- The sequence of operation kinds the notebook performs. -/
def notebookOpSequence : List OpKind :=
  notebookSteps.map Step.opKind

/-- The sequence of outputs the notebook displays. -/
def notebookOutputs : List OutputKind :=
  notebookSteps.filterMap Step.output

/-- The operation sequence claimed by the specification:
(a), (b), (c), (d), (e), (f), (g), each exactly once. -/
def claimedOpSequence : List OpKind :=
  [ OpKind.queryDevices, OpKind.startCluster, OpKind.loadCSV, OpKind.groupbyAggregate,
    OpKind.applyPerRow, OpKind.fitModel, OpKind.predict ]

/-- The outputs claimed by the specification: exactly the grouped
price-mean table, the price-index column, and the predicted prices. -/
def claimedOutputs : List OutputKind :=
  [ OutputKind.groupedPriceMean, OutputKind.priceIndexHead, OutputKind.predictedPricesHead ]

/-- Sequential execution of the notebook steps in the presence of
failures.  `fails n` says whether the operation at position `n` raises an
error when attempted.  Starting at position `i`, each step is attempted
once; a step that raises with no handler installed aborts the run, so the
result is the list of positions actually attempted. -/
def runSteps (steps : List Step) (fails : Nat → Bool) (i : Nat) : List Nat :=
  match steps with
  | [] => []
  | s :: rest =>
      if fails i && !s.handlesErrors then [i]
      else i :: runSteps rest fails (i + 1)

/-- The positions the notebook attempts to execute, given the failure
oracle `fails`. -/
def executedPositions (fails : Nat → Bool) : List Nat :=
  runSteps notebookSteps fails 0

theorem mem_runSteps_lower (steps : List Step) (fails : Nat → Bool) (i j : Nat)
    (h : j ∈ runSteps steps fails i) : i ≤ j := by
  induction steps generalizing i with
  | nil => cases h
  | cons s rest ih =>
      rw [runSteps] at h
      by_cases hc : fails i && !s.handlesErrors
      · simp [hc] at h; omega
      · simp [hc] at h
        rcases h with rfl | h
        · exact Nat.le_refl j
        · exact Nat.le_of_succ_le (ih (i + 1) h)

theorem runSteps_nodup (steps : List Step) (fails : Nat → Bool) (i : Nat) :
    (runSteps steps fails i).Nodup := by
  induction steps generalizing i with
  | nil => exact List.nodup_nil
  | cons s rest ih =>
      rw [runSteps]
      by_cases hc : fails i && !s.handlesErrors
      · simp [hc]
      · simp only [hc, if_false, Bool.false_eq_true]
        refine List.nodup_cons.mpr ⟨fun hmem => ?_, ih (i + 1)⟩
        have := mem_runSteps_lower rest fails (i + 1) i hmem
        omega

theorem mem_runSteps_no_earlier_failure (steps : List Step) (fails : Nat → Bool)
    (i j : Nat) (hall : ∀ s ∈ steps, s.handlesErrors = false)
    (h : j ∈ runSteps steps fails i) :
    ∀ k, i ≤ k → k < j → fails k = false := by
  induction steps generalizing i with
  | nil => cases h
  | cons s rest ih =>
      intro k hik hkj
      rw [runSteps] at h
      by_cases hc : fails i && !s.handlesErrors
      · simp [hc] at h
        omega
      · simp [hc] at h
        have hs : s.handlesErrors = false := hall s (List.mem_cons_self s rest)
        have hfi : fails i = false := by
          by_contra hne
          have : fails i = true := by
            cases hq : fails i
            · exact absurd hq hne
            · rfl
          simp [this, hs] at hc
        rcases h with rfl | h
        · omega
        · rcases Nat.eq_or_lt_of_le hik with rfl | hlt
          · exact hfi
          · exact ih (i + 1) (fun t ht => hall t (List.mem_cons_of_mem s ht)) h k hlt hkj

/-- Sample rows used to instantiate universally quantified theorems
(values taken from the head of the listings data shown in the notebook). -/
def sampleRows : List Row :=
  [ ⟨"Back Bay", "Entire home/apt", 96, some (8/100), some 29⟩,
    ⟨"Back Bay", "Entire home/apt", 75, none, some 91⟩,
    ⟨"Roxbury", "Entire home/apt", 169, some (81/100), some 29⟩ ]

theorem priceBucket_mono {a b : Int} (h : a ≤ b) : priceBucket a ≤ priceBucket b := by
  unfold priceBucket
  split_ifs <;> omega

theorem expensive_get_in (x p : List Int) (i : Nat) (hlen : x.length ≤ p.length)
    (hi : i < x.length) : ((expensive x p).2)[i]? = some (priceBucket (x.getD i 0)) := by
  simpa using expensiveLoop_get_in x p 0 i (Nat.zero_le i) (by omega) (by omega)

/-- C1: the claim that no repository-defined function transforms the data
is false: the step applying `cudf.apply_rows` passes the
repository-defined function `expensive`, and `expensive` genuinely
transforms the data — on the single price 30 it writes price index 0,
on the single price 120 it writes 2. -/
theorem C1_counterexample :
    (∃ s ∈ notebookSteps, s.usesRepoFunction = true) ∧
    (expensive [30] [-1]).2 = [0] ∧ (expensive [120] [-1]).2 = [2] := by
  decide

/-- C1 (amended): every step of the notebook other than the per-row
transformation is a single external-library call applying no
repository-defined function; the per-row transformation step is the one
step that applies a repository-defined function (`expensive`). -/
theorem C1_amended :
    ∀ s ∈ notebookSteps, s.usesRepoFunction = true → s.opKind = OpKind.applyPerRow := by
  decide

/-- Witness for C1 (amended) at the concrete apply-rows step. -/
theorem C1_amended_witness :
    (⟨OpKind.applyPerRow, some OutputKind.priceIndexHead, true, false⟩ : Step).opKind =
      OpKind.applyPerRow :=
  C1_amended ⟨OpKind.applyPerRow, some OutputKind.priceIndexHead, true, false⟩
    (by decide) rfl

/-- C2: for every price array `x` and every `i < len x`, after running
`expensive` the entry `price_index[i]` is 0 when `x[i] < 50`, 1 when
`50 <= x[i] < 100`, and 2 when `x[i] >= 100`; in particular every written
entry is one of 0, 1, 2. -/
theorem C2_price_index_values (x p : List Int) (i : Nat)
    (hlen : x.length ≤ p.length) (hi : i < x.length) :
    ((x.getD i 0 < 50 → ((expensive x p).2)[i]? = some 0) ∧
     (50 ≤ x.getD i 0 → x.getD i 0 < 100 → ((expensive x p).2)[i]? = some 1) ∧
     (100 ≤ x.getD i 0 → ((expensive x p).2)[i]? = some 2)) ∧
    ∃ v, ((expensive x p).2)[i]? = some v ∧ (v = 0 ∨ v = 1 ∨ v = 2) := by
  have hget := expensive_get_in x p i hlen hi
  refine ⟨⟨fun h1 => ?_, fun h1 h2 => ?_, fun h1 => ?_⟩, ?_⟩
  · rw [hget]; unfold priceBucket; rw [if_pos h1]
  · rw [hget]; unfold priceBucket; rw [if_neg (by omega), if_pos h2]
  · rw [hget]; unfold priceBucket; rw [if_neg (by omega), if_neg (by omega)]
  · rw [hget]; unfold priceBucket; split_ifs <;> exact ⟨_, rfl, by omega⟩

/-- Witness for C2 at prices [75, 20, 150]: the first price, 75, is
moderately expensive, so index 1 is written. -/
theorem C2_witness : ((expensive [75, 20, 150] [0, 0, 0]).2)[0]? = some 1 :=
  (C2_price_index_values [75, 20, 150] [0, 0, 0] 0 (by decide) (by decide)).1.2.1
    (by decide) (by decide)

/-- C3: for every (neighbourhood, room_type) pair present in the loaded
rows, the groupby/aggregate result of notebook cell 4 maps that pair to
the arithmetic mean of `price` over exactly the rows carrying that pair,
and the grouped price-mean table is among the notebook outputs. -/
theorem C3_groupby_mean (rows : List Row) (k : String × String)
    (h : k ∈ rows.map keyOf) :
    lookupKey k (groupbyMeanPrice rows) =
      some (((rows.filter (fun r => keyOf r = k)).map Row.price).sum /
        (rows.filter (fun r => keyOf r = k)).length) ∧
    OutputKind.groupedPriceMean ∈ notebookOutputs := by
  constructor
  · have hk : k ∈ (rows.map keyOf).dedup := List.mem_dedup.mpr h
    simpa [meanPrice] using
      lookupKey_map_self (f := fun k => meanPrice (rows.filter (fun r => keyOf r = k)))
        ((rows.map keyOf).dedup) k hk
  · decide

/-- Witness for C3 on the sample rows: the two Back Bay entire homes have
prices 96 and 75, so the group mean is 171/2. -/
theorem C3_witness :
    lookupKey ("Back Bay", "Entire home/apt") (groupbyMeanPrice sampleRows) =
      some (171 / 2) := by
  have h := (C3_groupby_mean sampleRows ("Back Bay", "Entire home/apt") (by decide)).1
  rw [h]
  simp +decide [sampleRows, keyOf, List.filter]
  norm_num

/-- C4: the transformation producing `price_index` is per-row — if two
runs receive the same price at index `i`, they write the same value at
index `i`, whatever the other rows and the output buffers are. -/
theorem C4_per_row (x x2 p p2 : List Int) (i : Nat)
    (h1 : x.length ≤ p.length) (h2 : x2.length ≤ p2.length)
    (hi : i < x.length) (hi2 : i < x2.length)
    (hx : x.getD i 0 = x2.getD i 0) :
    ((expensive x p).2)[i]? = ((expensive x2 p2).2)[i]? := by
  rw [expensive_get_in x p i h1 hi, expensive_get_in x2 p2 i h2 hi2, hx]

/-- Witness for C4: the arrays [60, 5] and [60] agree at index 0, and the
two runs write the same price index there. -/
theorem C4_witness :
    ((expensive [60, 5] [0, 0]).2)[0]? = ((expensive [60] [7]).2)[0]? :=
  C4_per_row [60, 5] [60] [0, 0] [7] 0 (by decide) (by decide) (by decide)
    (by decide) (by decide)

/-- C5: the claim that the notebook performs exactly the operations
(a)–(g) in exactly that order is false: the notebook performs a second
CSV-load (of `test*.csv`, cell 7) between fitting the model and
predicting, so its operation sequence differs from the claimed one. -/
theorem C5_counterexample : notebookOpSequence ≠ claimedOpSequence := by
  decide

/-- C5 (amended): the notebook performs the operations (a)–(g) in the
claimed relative order, with exactly one additional operation: a second
CSV load (so CSV loading occurs twice), placed between the model fit and
the prediction. -/
theorem C5_amended :
    claimedOpSequence.Sublist notebookOpSequence ∧
    notebookOpSequence.length = claimedOpSequence.length + 1 ∧
    notebookOpSequence.count OpKind.loadCSV = 2 ∧
    notebookOpSequence =
      [ OpKind.queryDevices, OpKind.startCluster, OpKind.loadCSV, OpKind.groupbyAggregate,
        OpKind.applyPerRow, OpKind.fitModel, OpKind.loadCSV, OpKind.predict ] := by
  decide

/-- C6: the claim that the notebook prints exactly three outputs is
false: it also displays the accelerator-device listing (`!nvidia-smi`)
and the head of the loaded DataFrame (`df.head()`), five outputs in
all. -/
theorem C6_counterexample : notebookOutputs ≠ claimedOutputs := by
  decide

/-- C6 (amended): the notebook prints five outputs, namely — in this
order — the accelerator-device listing, the head of the loaded first
DataFrame, and then the three claimed tabular outputs (grouped
price-mean table, price-index column, predicted prices); in particular
the three claimed outputs appear in their claimed order and the only
further outputs are the device listing and the DataFrame head. -/
theorem C6_amended :
    notebookOutputs =
      [ OutputKind.deviceListing, OutputKind.dataFrameHead, OutputKind.groupedPriceMean,
        OutputKind.priceIndexHead, OutputKind.predictedPricesHead ] ∧
    notebookOutputs.length = 5 ∧
    claimedOutputs.Sublist notebookOutputs ∧
    notebookOutputs.filter
      (fun o => !(decide (o = OutputKind.deviceListing)) &&
                !(decide (o = OutputKind.dataFrameHead))) = claimedOutputs := by
  decide

/-- C7: no step of the notebook installs an error handler; consequently,
under any failure behaviour, a failing operation aborts the rest of the
sequence (no later position is attempted) and no operation is attempted
more than once (no retry). -/
theorem C7_no_error_handling (fails : Nat → Bool) (i j : Nat)
    (hfail : fails i = true) (hij : i < j) :
    (∀ s ∈ notebookSteps, s.handlesErrors = false) ∧
    j ∉ executedPositions fails ∧
    (∀ n, (executedPositions fails).count n ≤ 1) := by
  have hall : ∀ s ∈ notebookSteps, s.handlesErrors = false := by decide
  refine ⟨hall, fun hmem => ?_, fun n => ?_⟩
  · have hfk := mem_runSteps_no_earlier_failure notebookSteps fails 0 j hall hmem i
      (Nat.zero_le i) hij
    rw [hfail] at hfk
    exact Bool.noConfusion hfk
  · exact List.nodup_iff_count_le_one.mp (runSteps_nodup notebookSteps fails 0) n

/-- Witness for C7: if the operation at position 2 fails, position 5 (the
model fit) is never attempted. -/
theorem C7_witness : 5 ∉ executedPositions (fun n => n == 2) :=
  (C7_no_error_handling (fun n => n == 2) 2 5 (by decide) (by decide)).2.1

/-- C8: `expensive` is monotone in price — a row with a smaller or equal
price receives a smaller or equal price index. -/
theorem C8_monotone (x p : List Int) (i j : Nat) (hlen : x.length ≤ p.length)
    (hi : i < x.length) (hj : j < x.length) (hle : x.getD i 0 ≤ x.getD j 0) :
    (expensive x p).2.getD i 0 ≤ (expensive x p).2.getD j 0 := by
  have gi := expensive_get_in x p i hlen hi
  have gj := expensive_get_in x p j hlen hj
  rw [List.getD_eq_getElem?_getD, List.getD_eq_getElem?_getD, gi, gj]
  exact priceBucket_mono hle

/-- Witness for C8 at prices [30, 100]: bucket of 30 is at most bucket of
100. -/
theorem C8_witness :
    (expensive [30, 100] [0, 0]).2.getD 0 0 ≤ (expensive [30, 100] [0, 0]).2.getD 1 0 :=
  C8_monotone [30, 100] [0, 0] 0 1 (by decide) (by decide) (by decide) (by decide)

/-- C9: when the output buffer is at least as long as the input, the
`expensive` loop leaves the input column unchanged, preserves the buffer
length (all writes are in bounds), writes `priceBucket x[i]` exactly at
the positions `i < len x`, leaves every later position of the buffer
unchanged, and its writes at positions `i < len x` never depend on any
initial value of the buffer. -/
theorem C9_memory_safety (x p : List Int) (hlen : x.length ≤ p.length) :
    (expensive x p).1 = x ∧
    (expensive x p).2.length = p.length ∧
    (∀ i, i < x.length → ((expensive x p).2)[i]? = some (priceBucket (x.getD i 0))) ∧
    (∀ i, x.length ≤ i → ((expensive x p).2)[i]? = p[i]?) ∧
    (∀ p2 : List Int, x.length ≤ p2.length → ∀ i, i < x.length →
      ((expensive x p).2)[i]? = ((expensive x p2).2)[i]?) := by
  refine ⟨rfl, expensiveLoop_length x p 0, fun i hi => expensive_get_in x p i hlen hi,
    fun i hi => ?_, fun p2 h2 i hi => ?_⟩
  · exact expensiveLoop_get_ge x p 0 i (by omega)
  · rw [expensive_get_in x p i hlen hi, expensive_get_in x p2 i h2 hi]

/-- Witness for C9 at x = [10, 55], p = [9, 9, 9]: the entry beyond the
input length keeps its initial value 9. -/
theorem C9_witness :
    ((expensive [10, 55] [9, 9, 9]).2)[2]? = ([9, 9, 9] : List Int)[2]? :=
  (C9_memory_safety [10, 55] [9, 9, 9] (by decide)).2.2.2.1 2 (by decide)

/-- C10: for any fitting algorithm supplied by the external library, any
first dataset and any second dataset, the prediction vector the notebook
computes is exactly the evaluation of the model fitted on the first
dataset at the features of those rows of the second dataset that have no
missing feature, one prediction per surviving row, in order. -/
theorem C10_predictions (fitAlg : List (ℚ × ℚ) → List ℚ → LinModel)
    (df df_nyc : List Row) :
    notebookPredictions fitAlg df df_nyc =
      (df_nyc.filter hasFeatures).map (fun r =>
        (notebookFit fitAlg df).eval (r.reviews_per_month.getD 0, r.minimum_nights.getD 0)) := by
  unfold notebookPredictions predictModel
  rw [selectFeatures_eq_filter, List.map_map]
  rfl
